import Mathlib

/-! Shallow embedding of the overlay-napi repository (src/buffer.rs, src/window.rs,
src/lib.rs).  Machine integers are modelled as `Nat` (for `u32`/`usize`) and `Int`
(for `i32`); wherever the Rust arithmetic can overflow, the release-mode wrapping
behaviour is made explicit through `% u32Mod` on `Nat` and `wrap32` on `Int`. -/

/-- Modulus of 32-bit unsigned arithmetic. -/
def u32Mod : Nat := 4294967296

/-- Largest `u32` value; `u32::saturating_add` saturates here. -/
def u32Max : Nat := 4294967295

/-- Model of `u32::saturating_add` for values in the `u32` range. -/
def satAdd32 (a b : Nat) : Nat := min (a + b) u32Max

/-- Model of the Rust cast `n as i32` applied to a `u32` value `n`
(two-complement reinterpretation). -/
def toInt32 (n : Nat) : Int :=
  if n < 2147483648 then (n : Int) else (n : Int) - 4294967296

/-- Normalise an integer into the `i32` range `[-2^31, 2^31)`, as release-mode
wrapping arithmetic does.  Composed arithmetic such as `wrap32 (a + b * c)` is a
faithful model of the fully wrapped Rust computation because `wrap32` only
depends on the residue modulo `2^32`. -/
def wrap32 (z : Int) : Int := (z + 2147483648) % 4294967296 - 2147483648

/-- Model of `i32::abs` (wraps on `i32::MIN` in release builds). -/
def i32abs (z : Int) : Int := wrap32 (Int.natAbs z)

/-- Color from src/color.rs and src/lib.rs: four 8-bit channels. -/
structure Color where
  r : Nat
  g : Nat
  b : Nat
  a : Nat
  deriving DecidableEq, Repr

/-- Model of `Color::to_rgba`. -/
def Color.to_rgba (c : Color) : List Nat := [c.r, c.g, c.b, c.a]

/-- Status codes of the napi errors produced by the repository
(`Status::InvalidArg` and `Status::GenericFailure`). -/
inductive NapiStatus where
  | invalidArg
  | genericFailure
  deriving DecidableEq, Repr

/-- Model of `frame[index..index + 4].copy_from_slice(&rgba)`: write the four
color bytes at `index`. -/
def write_rgba (buffer : List Nat) (index : Nat) (c : Color) : List Nat :=
  (((buffer.set index c.r).set (index + 1) c.g).set (index + 2) c.b).set (index + 3) c.a

/-- Model of `draw_pixel_safe` from src/buffer.rs.  The Rust index computation
`(y * width + x) as usize * 4` performs the sum and product in `u32`, hence the
`% u32Mod`; the result is the ok/error outcome together with the buffer after
the call (unchanged on the error path). -/
def draw_pixel_safe (buffer : List Nat) (x y width : Nat) (c : Color) :
    Except String Unit × List Nat :=
  let index := ((y * width + x) % u32Mod) * 4
  if index + 3 < buffer.length then
    (Except.ok (), write_rgba buffer index c)
  else
    (Except.error "Pixel position out of bounds", buffer)

/-- Model of the napi export `draw_pixel` from src/buffer.rs (the standalone
`draw_pixel` in src/lib.rs computes the same result): the error case is mapped
to `Status::InvalidArg`. -/
def draw_pixel (buffer : List Nat) (x y width : Nat) (c : Color) :
    Except NapiStatus (List Nat) :=
  match draw_pixel_safe buffer x y width c with
  | (Except.ok _, newData) => Except.ok newData
  | (Except.error _, _) => Except.error NapiStatus.invalidArg

/-- Byte base indices written by `draw_pixel_safe` on a buffer of length `len`
(a single index, written only under the bounds guard). -/
def draw_pixel_write_indices (len x y width : Nat) : List Nat :=
  let index := ((y * width + x) % u32Mod) * 4
  if index + 3 < len then [index] else []

/-- RectangleParams from src/buffer.rs. -/
structure RectangleParams where
  x : Nat
  y : Nat
  width : Nat
  height : Nat
  frame_width : Nat
  frame_height : Nat
  deriving DecidableEq, Repr

/-- Clamped loop bound `start_x = x.min(frame_width as u32)` of
`draw_rectangle_optimized`. -/
def rect_start_x (p : RectangleParams) : Nat := min p.x p.frame_width

/-- Clamped loop bound `start_y = y.min(frame_height as u32)`. -/
def rect_start_y (p : RectangleParams) : Nat := min p.y p.frame_height

/-- Clamped loop bound `end_x = x.saturating_add(width).min(frame_width as u32)`. -/
def rect_end_x (p : RectangleParams) : Nat := min (satAdd32 p.x p.width) p.frame_width

/-- Clamped loop bound `end_y = y.saturating_add(height).min(frame_height as u32)`. -/
def rect_end_y (p : RectangleParams) : Nat := min (satAdd32 p.y p.height) p.frame_height

/-- Pixels `(px, py)` visited by the nested loops of `draw_rectangle_optimized`:
`py` ranges over `start_y..end_y` and `px` over `start_x..end_x`. -/
def rect_pixels (p : RectangleParams) : List (Nat × Nat) :=
  (List.range (rect_end_y p - rect_start_y p)).flatMap fun j =>
    (List.range (rect_end_x p - rect_start_x p)).map fun k =>
      (rect_start_x p + k, rect_start_y p + j)

/-- Byte base indices written by `draw_rectangle_optimized`: for each row `py`
the code iterates `(row_start..row_end).step_by(4)` where
`row_start = (py * frame_width + start_x) * 4`; the `k`-th index of the row is
`row_start + 4 * k`.  No guard against the buffer length is performed. -/
def rect_write_indices (p : RectangleParams) : List Nat :=
  (List.range (rect_end_y p - rect_start_y p)).flatMap fun j =>
    let py := rect_start_y p + j
    let row_start := (py * p.frame_width + rect_start_x p) * 4
    (List.range (rect_end_x p - rect_start_x p)).map fun k => row_start + 4 * k

/-- Model of `draw_rectangle_optimized` acting on the frame bytes.  In Rust an
index reaching past the buffer aborts (slice indexing panic); `List.set` instead
ignores such writes, so the index list `rect_write_indices` is the authority for
the bounds-safety claims. -/
def draw_rectangle_optimized (frame : List Nat) (p : RectangleParams) (c : Color) :
    List Nat :=
  (rect_write_indices p).foldl (fun buf i => write_rgba buf i c) frame

/-- LineParams from src/types.rs. -/
structure LineParams where
  x1 : Nat
  y1 : Nat
  x2 : Nat
  y2 : Nat
  buffer_width : Nat
  buffer_height : Nat
  color : Color
  deriving DecidableEq, Repr

/-- Loop-invariant data of `draw_line_optimized`: the target point, the
Bresenham increments and the buffer geometry, computed once before the loop. -/
structure LineEnv where
  x1i : Int
  y1i : Int
  dx : Int
  dy : Int
  sx : Int
  sy : Int
  bw : Nat
  bh : Nat
  color : Color
  deriving DecidableEq, Repr

/-- Setup phase of `draw_line_optimized` (src/buffer.rs): `u32` inputs are cast
to `i32`, `dx = (x1_i - x0).abs()`, `dy = -(y1_i - y0).abs()`, and the step
directions `sx`, `sy` are chosen from the initial comparison. -/
def lineEnvOf (p : LineParams) : LineEnv :=
  let x0 := toInt32 p.x1
  let y0 := toInt32 p.y1
  let x1i := toInt32 p.x2
  let y1i := toInt32 p.y2
  { x1i := x1i, y1i := y1i,
    dx := i32abs (wrap32 (x1i - x0)),
    dy := wrap32 (-(i32abs (wrap32 (y1i - y0)))),
    sx := if x0 < x1i then 1 else -1,
    sy := if y0 < y1i then 1 else -1,
    bw := p.buffer_width, bh := p.buffer_height, color := p.color }

/-- Accumulated effect of the line loop: points visited by the loop head, byte
base indices actually written, and the current buffer. -/
structure LineAcc where
  visited : List (Int × Int)
  written : List Nat
  buffer : List Nat
  deriving DecidableEq, Repr

/-- Shared bounds-checked pixel write used by the line and circle loops:
the point is drawn only if `0 ≤ px`, `0 ≤ py`, `px < bw`, `py < bh`, and the
index `(py as u32 * bw + px as u32) as usize * 4` (computed in wrapping `u32`
arithmetic) satisfies `index + 3 < buffer.len()`.  Returns the new buffer and
the extended list of written base indices. -/
def guarded_write (bw bh : Nat) (c : Color) (buffer : List Nat) (written : List Nat)
    (px py : Int) : List Nat × List Nat :=
  if 0 ≤ px ∧ 0 ≤ py ∧ px < (bw : Int) ∧ py < (bh : Int) then
    let index := ((py.toNat * bw + px.toNat) % u32Mod) * 4
    if index + 3 < buffer.length then
      (write_rgba buffer index c, written ++ [index])
    else (buffer, written)
  else (buffer, written)

/-- Fuel-indexed model of the unbounded `loop` in `draw_line_optimized`: draw
the current point, break when `(x0, y0)` equals the target, otherwise update
`error`, `x0`, `y0` from `e2 = 2 * error` exactly as the source does (all `i32`
operations wrap).  `none` means the fuel ran out before the loop broke. -/
def lineLoop (env : LineEnv) : Nat → Int → Int → Int → LineAcc → Option LineAcc
  | 0, _, _, _, _ => none
  | fuel + 1, x0, y0, err, acc =>
    let w := guarded_write env.bw env.bh env.color acc.buffer acc.written x0 y0
    let acc1 : LineAcc := { visited := acc.visited ++ [(x0, y0)], written := w.2, buffer := w.1 }
    if x0 = env.x1i ∧ y0 = env.y1i then some acc1
    else
      let e2 := wrap32 (2 * err)
      let err1 := if e2 ≥ env.dy then wrap32 (err + env.dy) else err
      let x0n := if e2 ≥ env.dy then wrap32 (x0 + env.sx) else x0
      let err2 := if e2 ≤ env.dx then wrap32 (err1 + env.dx) else err1
      let y0n := if e2 ≤ env.dx then wrap32 (y0 + env.sy) else y0
      lineLoop env fuel x0n y0n err2 acc1

/-- Model of `draw_line_optimized` from src/buffer.rs, with explicit fuel for
the source loop (the repository loop has no bound of its own). -/
def draw_line_optimized (fuel : Nat) (buffer : List Nat) (p : LineParams) :
    Option LineAcc :=
  lineLoop (lineEnvOf p) fuel (toInt32 p.x1) (toInt32 p.y1)
    (wrap32 ((lineEnvOf p).dx + (lineEnvOf p).dy)) ⟨[], [], buffer⟩

/-- Accumulated effect of the circle loop. -/
structure CircleAcc where
  written : List Nat
  buffer : List Nat
  deriving DecidableEq, Repr

/-- The eight symmetric points drawn per iteration of `draw_circle_optimized`
(each coordinate is an `i32` sum, hence wrapped). -/
def circlePoints (cxI cyI x y : Int) : List (Int × Int) :=
  [ (wrap32 (cxI + x), wrap32 (cyI + y)), (wrap32 (cxI - x), wrap32 (cyI + y)),
    (wrap32 (cxI + x), wrap32 (cyI - y)), (wrap32 (cxI - x), wrap32 (cyI - y)),
    (wrap32 (cxI + y), wrap32 (cyI + x)), (wrap32 (cxI - y), wrap32 (cyI + x)),
    (wrap32 (cxI + y), wrap32 (cyI - x)), (wrap32 (cxI - y), wrap32 (cyI - x)) ]

/-- Bounds-checked draw of one symmetric point of the circle. -/
def circleDraw (bw bh : Nat) (c : Color) (acc : CircleAcc) (pt : Int × Int) : CircleAcc :=
  let w := guarded_write bw bh c acc.buffer acc.written pt.1 pt.2
  { written := w.2, buffer := w.1 }

/-- Fuel-indexed model of the `while y >= x` loop of `draw_circle_optimized`:
draw the eight points, then `x += 1` and update `y`, `d` exactly as the source
does (using the already-incremented `x` and, on the `d > 0` branch, the
already-decremented `y`). -/
def circleLoop (cxI cyI : Int) (bw bh : Nat) (c : Color) :
    Nat → Int → Int → Int → CircleAcc → CircleAcc
  | 0, _, _, _, acc => acc
  | fuel + 1, x, y, d, acc =>
    if y ≥ x then
      let acc1 := (circlePoints cxI cyI x y).foldl (circleDraw bw bh c) acc
      let xn := wrap32 (x + 1)
      if d > 0 then
        let yn := wrap32 (y - 1)
        circleLoop cxI cyI bw bh c fuel xn yn (wrap32 (d + 4 * (xn - yn) + 10)) acc1
      else
        circleLoop cxI cyI bw bh c fuel xn y (wrap32 (d + 4 * xn + 6)) acc1
    else acc

/-- Model of `draw_circle_optimized` from src/buffer.rs: start at `(0, r)` with
decision variable `d = 3 - 2 * r` (computed in `i32`). -/
def draw_circle_optimized (fuel : Nat) (buffer : List Nat)
    (cx cy radius bw bh : Nat) (c : Color) : CircleAcc :=
  circleLoop (toInt32 cx) (toInt32 cy) bw bh c fuel 0 (toInt32 radius)
    (wrap32 (3 - wrap32 (2 * toInt32 radius))) ⟨[], buffer⟩

/-- Shared window state from src/window.rs (`WindowState`).  The `pixels`
field holds the frame bytes of the presentation buffer when the surface
exists; `window` records whether the native window handle is present. -/
structure WindowState where
  pixels : Option (List Nat)
  window : Bool
  width : Nat
  height : Nat
  event_callback : Bool
  render_when_occluded : Bool
  occluded : Bool
  deriving DecidableEq, Repr

/-- Model of `FrameController::update_frame` (src/window.rs): length mismatch
yields `Status::GenericFailure` before any mutation; otherwise the frame is
replaced by the buffer (the subsequent `request_redraw` has no state effect). -/
def FrameController.update_frame (st : WindowState) (buffer_data : List Nat) :
    Except NapiStatus Unit × WindowState :=
  match st.pixels with
  | some frame =>
    if buffer_data.length ≠ frame.length then
      (Except.error NapiStatus.genericFailure, st)
    else
      (Except.ok (), { st with pixels := some buffer_data })
  | none => (Except.error NapiStatus.genericFailure, st)

/-- Model of `FrameController::get_frame_size` (src/window.rs): reports the
stored `width` and `height` fields, never failing. -/
def FrameController.get_frame_size (st : WindowState) : Except NapiStatus (List Nat) :=
  Except.ok [st.width, st.height]

/-- Model of `FrameController::get_frame_buffer` (src/window.rs): a copy of the
frame bytes, or not-initialized when no surface exists. -/
def FrameController.get_frame_buffer (st : WindowState) : Except NapiStatus (List Nat) :=
  match st.pixels with
  | some frame => Except.ok frame
  | none => Except.error NapiStatus.genericFailure

/-- Window level enum shared by src/lib.rs and src/types.rs. -/
inductive WindowLevel where
  | normal
  | alwaysOnTop
  | alwaysOnBottom
  deriving DecidableEq, Repr

/-- The `Pixels` presentation buffer as owned by the lib.rs `Overlay`: declared
dimensions plus the frame bytes (in the running system
`frame.length = width * height * 4`). -/
structure OverlayPixels where
  width : Nat
  height : Nat
  frame : List Nat
  deriving DecidableEq, Repr

/-- `InitialConfig` from src/lib.rs: the staged pre-creation configuration. -/
structure InitialConfig where
  width : Nat
  height : Nat
  x : Int
  y : Int
  title : String
  window_level : WindowLevel
  initial_frame_data : Option (List Nat)
  deriving DecidableEq, Repr

/-- State of the lib.rs `Overlay`: the `OverlayState` fields (`pixels`,
`window`) plus the separately locked `initial_config`. -/
structure OverlayState where
  pixels : Option OverlayPixels
  window : Bool
  initial_config : Option InitialConfig
  deriving DecidableEq, Repr

/-- Model of `Overlay::update_frame` (src/lib.rs): with a live surface, a
length mismatch yields `Status::InvalidArg` and no mutation, a match copies the
buffer into the frame; without a surface the bytes are staged into
`initial_config.initial_frame_data` (defaults `800, 600, (100, 100)` when no
config was staged yet). -/
def Overlay.update_frame (st : OverlayState) (buffer : List Nat) :
    Except NapiStatus Unit × OverlayState :=
  match st.pixels with
  | some px =>
    if buffer.length ≠ px.frame.length then
      (Except.error NapiStatus.invalidArg, st)
    else
      (Except.ok (), { st with pixels := some { px with frame := buffer } })
  | none =>
    match st.initial_config with
    | some c =>
      (Except.ok (), { st with initial_config := some { c with initial_frame_data := some buffer } })
    | none =>
      let fresh : InitialConfig :=
        ⟨800, 600, 100, 100, "Overlay NAPI", WindowLevel.alwaysOnTop, some buffer⟩
      (Except.ok (), { st with initial_config := some fresh })

/-- Model of `Overlay::get_frame_size` (src/lib.rs): derives a size from the
frame byte length as `width = sqrt(len / 4)` truncated (the `f64` square root
truncated to `u32` equals `Nat.sqrt` on these magnitudes) and reports
`height = width`; fails with a generic not-initialized error when no surface
exists. -/
def Overlay.get_frame_size (st : OverlayState) : Except NapiStatus (List Nat) :=
  match st.pixels with
  | some px =>
    let size := px.frame.length / 4
    let width := Nat.sqrt size
    Except.ok [width, width]
  | none => Except.error NapiStatus.genericFailure

/-- Model of `Overlay::set_position` (src/lib.rs): with a live window the
native position is set (no modelled state change); otherwise the coordinates
are merged into the staged `initial_config`, creating it with the
documented defaults when absent. -/
def Overlay.set_position (st : OverlayState) (x y : Int) :
    Except NapiStatus Unit × OverlayState :=
  if st.window then (Except.ok (), st)
  else
    match st.initial_config with
    | some c => (Except.ok (), { st with initial_config := some { c with x := x, y := y } })
    | none =>
      let fresh : InitialConfig :=
        ⟨800, 600, x, y, "Overlay NAPI", WindowLevel.alwaysOnTop, none⟩
      (Except.ok (), { st with initial_config := some fresh })

/-- WindowBuilder attributes that `create_overlay_window_with_config`
(src/lib.rs) passes to winit; `position = none` means the builder receives no
position and the platform picks the location. -/
structure WindowAttrs where
  width : Nat
  height : Nat
  title : String
  window_level : WindowLevel
  position : Option (Int × Int)
  deriving DecidableEq, Repr

/-- The `(width, height, title, x, y, window_level)` tuple that
`create_overlay_window_with_config` reads from the staged config, with the
defaults of its else-branch. -/
def configValues (cfg : Option InitialConfig) : Nat × Nat × String × Int × Int × WindowLevel :=
  match cfg with
  | some c => (c.width, c.height, c.title, c.x, c.y, c.window_level)
  | none => (800, 600, "Overlay NAPI", 100, 100, WindowLevel.alwaysOnTop)

/-- The staged (or default) x coordinate consumed at window creation. -/
def configX (cfg : Option InitialConfig) : Int := (configValues cfg).2.2.2.1

/-- The staged (or default) y coordinate consumed at window creation. -/
def configY (cfg : Option InitialConfig) : Int := (configValues cfg).2.2.2.2.1

/-- Model of `create_overlay_window_with_config` (src/lib.rs): builds the
window attributes from the staged configuration; `with_position` is called
only when `x != 0 || y != 0`. -/
def create_overlay_window_with_config (cfg : Option InitialConfig) : WindowAttrs :=
  match configValues cfg with
  | (width, height, title, x, y, level) =>
    { width := width, height := height, title := title, window_level := level,
      position := if x ≠ 0 ∨ y ≠ 0 then some (x, y) else none }

deriving instance DecidableEq for Except

/-! Theorems settling the claims, in claim order. -/

/-- Concrete non-square state exercising the two frame-size queries: a created
surface whose presentation buffer is 2 pixels wide and 1 pixel high. -/
def c1_pixels : OverlayPixels := ⟨2, 1, [0, 0, 0, 0, 0, 0, 0, 0]⟩

/-- Overlay state holding `c1_pixels` as its live surface. -/
def c1_overlay_state : OverlayState := ⟨some c1_pixels, true, none⟩

/-- Window state with the same 2-by-1 frame and stored dimensions. -/
def c1_window_state : WindowState := ⟨some [0, 0, 0, 0, 0, 0, 0, 0], true, 2, 1, false, true, false⟩

/-- C1: the claim that the frame-size query always returns the declared width
and height and is never derived as the square root of the byte length over 4
fails on `Overlay::get_frame_size` in src/lib.rs.  On a surface with a 2-by-1
frame (8 bytes, the length invariant `len = width * height * 4` holding), that
query answers `[1, 1]` instead of the declared `[2, 1]`;
`FrameController::get_frame_size` in src/window.rs does return the stored
fields. -/
theorem c1_get_frame_size_divergence :
    c1_pixels.frame.length = c1_pixels.width * c1_pixels.height * 4 ∧
    Overlay.get_frame_size c1_overlay_state = Except.ok [1, 1] ∧
    FrameController.get_frame_size c1_window_state = Except.ok [2, 1] ∧
    (1 : Nat) ≠ c1_pixels.width := by
  have h : Nat.sqrt 2 = 1 := (Nat.eq_sqrt.mpr (by norm_num)).symm
  refine ⟨by decide, ?_, by decide, by decide⟩
  simp [Overlay.get_frame_size, c1_overlay_state, c1_pixels, h]

/-- Window state with a live 1-by-1 frame of 4 bytes, used for the
update-frame mismatch claims. -/
def c2_window_state : WindowState := ⟨some [0, 0, 0, 0], true, 1, 1, false, true, false⟩

/-- C2 counterexample: on a created surface with a 4-byte frame, calling
`FrameController::update_frame` with a 2-byte buffer returns an error whose
status is `GenericFailure`, not the invalid-argument status the claim
requires (the frame is indeed left unchanged). -/
theorem c2_update_frame_status_counterexample :
    FrameController.update_frame c2_window_state [0, 0]
      = (Except.error NapiStatus.genericFailure, c2_window_state) ∧
    NapiStatus.genericFailure ≠ NapiStatus.invalidArg := by
  decide

/-- C2 (amended): on every created surface, `update_frame` with a buffer whose
length differs from the frame rejects the call before any mutation, leaving
the state untouched; `FrameController::update_frame` reports the
generic-failure status while `Overlay::update_frame` reports invalid-argument. -/
theorem c2_update_frame_mismatch_atomic :
    (∀ (st : WindowState) (frame buf : List Nat),
      st.pixels = some frame → buf.length ≠ frame.length →
      FrameController.update_frame st buf = (Except.error NapiStatus.genericFailure, st)) ∧
    (∀ (st : OverlayState) (px : OverlayPixels) (buf : List Nat),
      st.pixels = some px → buf.length ≠ px.frame.length →
      Overlay.update_frame st buf = (Except.error NapiStatus.invalidArg, st)) := by
  constructor
  · intro st frame buf h hlen
    unfold FrameController.update_frame
    rw [h]
    simp [hlen]
  · intro st px buf h hlen
    unfold Overlay.update_frame
    rw [h]
    simp [hlen]

/-- C2 witness: the amended statement applied to concrete mismatching buffers
on both controllers. -/
theorem c2_update_frame_mismatch_atomic_witness :
    FrameController.update_frame c2_window_state [0, 0, 0]
      = (Except.error NapiStatus.genericFailure, c2_window_state) ∧
    Overlay.update_frame c1_overlay_state [0, 0, 0]
      = (Except.error NapiStatus.invalidArg, c1_overlay_state) :=
  ⟨c2_update_frame_mismatch_atomic.1 c2_window_state [0, 0, 0, 0] [0, 0, 0] rfl (by decide),
   c2_update_frame_mismatch_atomic.2 c1_overlay_state c1_pixels [0, 0, 0] rfl (by decide)⟩

/-- C3: staging `set_position(10, 20)` while no window exists succeeds, and a
subsequent `create_overlay_window_with_config` consuming the staged
configuration passes position `(10, 20)` to the window builder — for every
prior staged configuration and pixels field. -/
theorem c3_staged_position_applied (cfg : Option InitialConfig) (px : Option OverlayPixels) :
    (Overlay.set_position ⟨px, false, cfg⟩ 10 20).1 = Except.ok () ∧
    (create_overlay_window_with_config
        ((Overlay.set_position ⟨px, false, cfg⟩ 10 20).2.initial_config)).position
      = some (10, 20) := by
  cases cfg <;>
    simp [Overlay.set_position, create_overlay_window_with_config, configValues]

/-- C9: at window creation the staged position is applied exactly when `x` or
`y` is nonzero; a staged `(0, 0)` position (and only such a position) leaves
the builder without a position, so the platform chooses the location. -/
theorem c9_zero_position_not_applied (cfg : Option InitialConfig) :
    ((create_overlay_window_with_config cfg).position = none ↔
      configX cfg = 0 ∧ configY cfg = 0) ∧
    (configX cfg ≠ 0 ∨ configY cfg ≠ 0 →
      (create_overlay_window_with_config cfg).position
        = some (configX cfg, configY cfg)) := by
  cases cfg with
  | none =>
    simp [create_overlay_window_with_config, configValues, configX, configY]
  | some c =>
    simp only [create_overlay_window_with_config, configValues, configX, configY]
    by_cases hx : c.x = 0 <;> by_cases hy : c.y = 0 <;> simp [hx, hy]

/-- C9 witness: a staged configuration at exactly `(0, 0)` yields a builder
without position. -/
theorem c9_zero_position_not_applied_witness :
    (create_overlay_window_with_config
        (some ⟨800, 600, 0, 0, "Overlay NAPI", WindowLevel.alwaysOnTop, none⟩)).position
      = none :=
  (c9_zero_position_not_applied
      (some ⟨800, 600, 0, 0, "Overlay NAPI", WindowLevel.alwaysOnTop, none⟩)).1.mpr
    ⟨rfl, rfl⟩

/-- C6: the pixels written by `draw_rectangle_optimized` are exactly the
requested rectangle intersected with the frame, for every request and every
frame dimension in the `u32` range (the saturating sums `x + w`, `y + h`
collapse against the frame clamp). -/
theorem c6_rectangle_exact_clip (p : RectangleParams)
    (hw : p.frame_width ≤ u32Max) (hh : p.frame_height ≤ u32Max) (px py : Nat) :
    ((px, py) ∈ rect_pixels p ↔
      (p.x ≤ px ∧ px < p.x + p.width ∧ px < p.frame_width ∧
       p.y ≤ py ∧ py < p.y + p.height ∧ py < p.frame_height)) := by
  unfold rect_pixels rect_start_x rect_start_y rect_end_x rect_end_y satAdd32 u32Max at *
  simp only [List.mem_flatMap, List.mem_map, List.mem_range, Prod.mk.injEq]
  constructor
  · rintro ⟨j, hj, k, hk, hxe, hye⟩
    omega
  · intro h
    exact ⟨py - min p.y p.frame_height, by omega, px - min p.x p.frame_width,
      by omega, by omega, by omega⟩

/-- C6 witness: pixel `(3, 2)` of the clipped rectangle `(2, 1, 5, 2)` on a
4-by-4 frame is written. -/
theorem c6_rectangle_exact_clip_witness :
    (3, 2) ∈ rect_pixels ⟨2, 1, 5, 2, 4, 4⟩ :=
  (c6_rectangle_exact_clip ⟨2, 1, 5, 2, 4, 4⟩ (by decide) (by decide) 3 2).mpr
    (by decide)

/-- C4 counterexample: with a frame parameter of 1-by-1 but an empty buffer,
the rectangle routine addresses byte index 0, which lies outside
`[0, buffer.len())` — the claimed absence of a length precondition is false
(in Rust this access panics). -/
theorem c4_rect_unguarded_counterexample :
    ¬ (∀ i ∈ rect_write_indices ⟨0, 0, 1, 1, 1, 1⟩, i + 3 < ([] : List Nat).length) := by
  decide

/-- Length preservation of the guarded pixel write. -/
lemma guarded_write_fst_length (bw bh : Nat) (c : Color) (buffer written : List Nat)
    (px py : Int) : (guarded_write bw bh c buffer written px py).1.length = buffer.length := by
  simp only [guarded_write]
  split
  · split
    · simp [write_rgba]
    · rfl
  · rfl

/-- Every index recorded by the guarded pixel write fits in the buffer. -/
lemma guarded_write_snd_bound (bw bh : Nat) (c : Color) (buffer written : List Nat)
    (px py : Int) (L : Nat) (hbuf : buffer.length = L)
    (h : ∀ i ∈ written, i + 3 < L) :
    ∀ i ∈ (guarded_write bw bh c buffer written px py).2, i + 3 < L := by
  simp only [guarded_write]
  split
  · split
    case isTrue hidx =>
      intro i hi
      rcases List.mem_append.mp hi with hi | hi
      · exact h i hi
      · have : i = ((py.toNat * bw + px.toNat) % u32Mod) * 4 := by simpa using hi
        subst this
        omega
    case isFalse _ => exact h
  · exact h

/-- The line loop preserves buffer length and keeps every recorded write index
inside the original buffer. -/
lemma lineLoop_written_inv (env : LineEnv) (L : Nat) :
    ∀ (fuel : Nat) (x0 y0 err : Int) (acc r : LineAcc),
      acc.buffer.length = L → (∀ i ∈ acc.written, i + 3 < L) →
      lineLoop env fuel x0 y0 err acc = some r →
      r.buffer.length = L ∧ ∀ i ∈ r.written, i + 3 < L := by
  intro fuel
  induction fuel with
  | zero =>
    intro x0 y0 err acc r _ _ hrun
    exact absurd hrun (by simp [lineLoop])
  | succ n ih =>
    intro x0 y0 err acc r hlen hbound hrun
    simp only [lineLoop] at hrun
    have hacc1len :
        (guarded_write env.bw env.bh env.color acc.buffer acc.written x0 y0).1.length = L := by
      rw [guarded_write_fst_length]; exact hlen
    have hacc1bound :
        ∀ i ∈ (guarded_write env.bw env.bh env.color acc.buffer acc.written x0 y0).2,
          i + 3 < L :=
      guarded_write_snd_bound env.bw env.bh env.color acc.buffer acc.written x0 y0 L hlen hbound
    split at hrun
    · cases hrun
      exact ⟨hacc1len, hacc1bound⟩
    · exact ih _ _ _ _ r hacc1len hacc1bound hrun

/-- Folding the eight-point draw over any point list preserves the invariant. -/
lemma circleDraw_foldl_inv (bw bh : Nat) (c : Color) (L : Nat) :
    ∀ (pts : List (Int × Int)) (acc : CircleAcc),
      acc.buffer.length = L → (∀ i ∈ acc.written, i + 3 < L) →
      ((pts.foldl (circleDraw bw bh c) acc).buffer.length = L ∧
       ∀ i ∈ (pts.foldl (circleDraw bw bh c) acc).written, i + 3 < L) := by
  intro pts
  induction pts with
  | nil => intro acc h1 h2; exact ⟨h1, h2⟩
  | cons pt rest ih =>
    intro acc h1 h2
    apply ih
    · show (guarded_write bw bh c acc.buffer acc.written pt.1 pt.2).1.length = L
      rw [guarded_write_fst_length]; exact h1
    · exact guarded_write_snd_bound bw bh c acc.buffer acc.written pt.1 pt.2 L h1 h2

/-- The circle loop preserves buffer length and keeps every recorded write
index inside the original buffer. -/
lemma circleLoop_written_inv (cxI cyI : Int) (bw bh : Nat) (c : Color) (L : Nat) :
    ∀ (fuel : Nat) (x y d : Int) (acc : CircleAcc),
      acc.buffer.length = L → (∀ i ∈ acc.written, i + 3 < L) →
      ((circleLoop cxI cyI bw bh c fuel x y d acc).buffer.length = L ∧
       ∀ i ∈ (circleLoop cxI cyI bw bh c fuel x y d acc).written, i + 3 < L) := by
  intro fuel
  induction fuel with
  | zero => intro x y d acc h1 h2; exact ⟨h1, h2⟩
  | succ n ih =>
    intro x y d acc h1 h2
    simp only [circleLoop]
    have hfold := circleDraw_foldl_inv bw bh c L (circlePoints cxI cyI x y) acc h1 h2
    split
    · split
      · exact ih _ _ _ _ hfold.1 hfold.2
      · exact ih _ _ _ _ hfold.1 hfold.2
    · exact ⟨h1, h2⟩

/-- Every index of the rectangle write list fits in a buffer at least as long
as `frame_width * frame_height * 4`. -/
lemma rect_write_indices_bound (p : RectangleParams) (len : Nat)
    (hlen : p.frame_width * p.frame_height * 4 ≤ len) :
    ∀ i ∈ rect_write_indices p, i + 3 < len := by
  intro i hi
  unfold rect_write_indices at hi
  simp only [List.mem_flatMap, List.mem_map, List.mem_range] at hi
  obtain ⟨j, hj, k, hk, rfl⟩ := hi
  have hpy : rect_start_y p + j < p.frame_height := by
    simp only [rect_end_y, rect_start_y, satAdd32, u32Max] at hj ⊢
    omega
  have hpx : rect_start_x p + k < p.frame_width := by
    simp only [rect_end_x, rect_start_x, satAdd32, u32Max] at hk ⊢
    omega
  have hsplit :
      ((rect_start_y p + j) * p.frame_width + rect_start_x p) * 4 + 4 * k
        = ((rect_start_y p + j) * p.frame_width + (rect_start_x p + k)) * 4 := by
    ring
  rw [hsplit]
  have key : (rect_start_y p + j) * p.frame_width + (rect_start_x p + k)
      < p.frame_height * p.frame_width := by
    calc (rect_start_y p + j) * p.frame_width + (rect_start_x p + k)
        < (rect_start_y p + j) * p.frame_width + p.frame_width := by omega
      _ = ((rect_start_y p + j) + 1) * p.frame_width := by ring
      _ ≤ p.frame_height * p.frame_width := Nat.mul_le_mul_right _ (by omega)
  have hflip : p.frame_height * p.frame_width * 4 ≤ len := by
    calc p.frame_height * p.frame_width * 4 = p.frame_width * p.frame_height * 4 := by ring
      _ ≤ len := hlen
  set A := (rect_start_y p + j) * p.frame_width + (rect_start_x p + k) with hA
  set B := p.frame_height * p.frame_width with hB
  omega

/-- C4 (amended): the pixel, line and circle primitives never record a write
index outside `[0, buffer.len())`; the rectangle routine stays inside the
buffer whenever `buffer.len() ≥ frame_width * frame_height * 4`, a length
precondition that (per the counterexample) cannot be dropped. -/
theorem c4_draw_primitives_in_bounds :
    (∀ (len x y width : Nat), ∀ i ∈ draw_pixel_write_indices len x y width, i + 3 < len) ∧
    (∀ (fuel : Nat) (buffer : List Nat) (p : LineParams) (r : LineAcc),
      draw_line_optimized fuel buffer p = some r → ∀ i ∈ r.written, i + 3 < buffer.length) ∧
    (∀ (fuel : Nat) (buffer : List Nat) (cx cy radius bw bh : Nat) (c : Color),
      ∀ i ∈ (draw_circle_optimized fuel buffer cx cy radius bw bh c).written,
        i + 3 < buffer.length) ∧
    (∀ (p : RectangleParams) (len : Nat), p.frame_width * p.frame_height * 4 ≤ len →
      ∀ i ∈ rect_write_indices p, i + 3 < len) := by
  refine ⟨?_, ?_, ?_, ?_⟩
  · intro len x y width i hi
    simp only [draw_pixel_write_indices] at hi
    split at hi
    · simp only [List.mem_singleton] at hi
      omega
    · simp at hi
  · intro fuel buffer p r hrun
    exact (lineLoop_written_inv (lineEnvOf p) buffer.length fuel _ _ _ _ r rfl
      (by simp) hrun).2
  · intro fuel buffer cx cy radius bw bh c
    exact (circleLoop_written_inv (toInt32 cx) (toInt32 cy) bw bh c buffer.length fuel _ _ _
      ⟨[], buffer⟩ rfl (by simp)).2
  · exact rect_write_indices_bound

/-- C4 witness: the rectangle conjunct applied to a 2-by-2 frame with an
exactly fitting 16-byte buffer, at written index 0. -/
theorem c4_draw_primitives_in_bounds_witness : (0 : Nat) + 3 < 16 :=
  c4_draw_primitives_in_bounds.2.2.2 ⟨0, 0, 2, 2, 2, 2⟩ 16 (by decide) 0 (by decide)

/-- C5 counterexample: with `y = width = 65536` the `u32` product wraps to 0,
so `draw_pixel_safe` succeeds and overwrites the first pixel of a 4-byte
buffer, although the claimed index `(y*width+x)*4 + 3` is far beyond the
buffer length, where the claim demands an error and an untouched buffer. -/
theorem c5_draw_pixel_overflow_counterexample :
    draw_pixel_safe [0, 0, 0, 0] 0 65536 65536 ⟨1, 2, 3, 4⟩ = (Except.ok (), [1, 2, 3, 4]) ∧
    ¬ ((65536 * 65536 + 0) * 4 + 3 < ([0, 0, 0, 0] : List Nat).length) := by
  decide

/-- Pointwise description of the four-byte color write: positions
`index..index+3` receive the channel bytes, all others keep their value. -/
lemma write_rgba_get? (buffer : List Nat) (index : Nat) (c : Color)
    (h : index + 3 < buffer.length) (i : Nat) :
    (write_rgba buffer index c).get? i =
      (if i = index then some c.r
       else if i = index + 1 then some c.g
       else if i = index + 2 then some c.b
       else if i = index + 3 then some c.a
       else buffer.get? i) := by
  unfold write_rgba
  by_cases e0 : i = index
  · subst e0
    rw [List.get?_set_ne _ _ (by omega), List.get?_set_ne _ _ (by omega),
      List.get?_set_ne _ _ (by omega), List.get?_set_eq_of_lt _ (by omega), if_pos rfl]
  · by_cases e1 : i = index + 1
    · subst e1
      rw [List.get?_set_ne _ _ (by omega), List.get?_set_ne _ _ (by omega),
        List.get?_set_eq_of_lt _ (by rw [List.length_set]; omega),
        if_neg (by omega), if_pos rfl]
    · by_cases e2 : i = index + 2
      · subst e2
        rw [List.get?_set_ne _ _ (by omega),
          List.get?_set_eq_of_lt _ (by rw [List.length_set, List.length_set]; omega),
          if_neg (by omega), if_neg (by omega), if_pos rfl]
      · by_cases e3 : i = index + 3
        · subst e3
          rw [List.get?_set_eq_of_lt _
              (by rw [List.length_set, List.length_set, List.length_set]; omega),
            if_neg (by omega), if_neg (by omega), if_neg (by omega), if_pos rfl]
        · rw [List.get?_set_ne _ _ (Ne.symm e3), List.get?_set_ne _ _ (Ne.symm e2),
            List.get?_set_ne _ _ (Ne.symm e1), List.get?_set_ne _ _ (Ne.symm e0),
            if_neg e0, if_neg e1, if_neg e2, if_neg e3]

/-- C5 (amended): `draw_pixel` computes its index in wrapping 32-bit
arithmetic, `index = ((y*width + x) mod 2^32) * 4`.  If `index + 3` is inside
the buffer the call succeeds and writes exactly the four color bytes at
`index`; otherwise it reports the out-of-bounds error (mapped to
invalid-argument by the napi export) and the buffer is returned unmodified.
For `y*width + x < 2^32` this is the behaviour the claim states. -/
theorem c5_draw_pixel_wrapping (buffer : List Nat) (x y width : Nat) (c : Color)
    (hx : x < u32Mod) (hy : y < u32Mod) (hw : width < u32Mod) :
    (((y * width + x) % u32Mod) * 4 + 3 < buffer.length →
      (draw_pixel_safe buffer x y width c).1 = Except.ok () ∧
      ∀ i : Nat, (draw_pixel_safe buffer x y width c).2.get? i =
        (if i = ((y * width + x) % u32Mod) * 4 then some c.r
         else if i = ((y * width + x) % u32Mod) * 4 + 1 then some c.g
         else if i = ((y * width + x) % u32Mod) * 4 + 2 then some c.b
         else if i = ((y * width + x) % u32Mod) * 4 + 3 then some c.a
         else buffer.get? i)) ∧
    (buffer.length ≤ ((y * width + x) % u32Mod) * 4 + 3 →
      draw_pixel_safe buffer x y width c
        = (Except.error "Pixel position out of bounds", buffer) ∧
      draw_pixel buffer x y width c = Except.error NapiStatus.invalidArg) := by
  constructor
  · intro h
    constructor
    · simp only [draw_pixel_safe]
      rw [if_pos h]
    · intro i
      simp only [draw_pixel_safe]
      rw [if_pos h]
      exact write_rgba_get? buffer _ c h i
  · intro h
    have hno : ¬ (((y * width + x) % u32Mod) * 4 + 3 < buffer.length) := by omega
    constructor
    · simp only [draw_pixel_safe]
      rw [if_neg hno]
    · simp only [draw_pixel, draw_pixel_safe]
      rw [if_neg hno]

/-- C5 witness: the in-bounds half applied at pixel `(0, 0)` of a one-pixel
row with one spare byte. -/
theorem c5_draw_pixel_wrapping_witness :
    (draw_pixel_safe [7, 7, 7, 7, 7] 0 0 1 ⟨1, 2, 3, 4⟩).1 = Except.ok () :=
  ((c5_draw_pixel_wrapping [7, 7, 7, 7, 7] 0 0 1 ⟨1, 2, 3, 4⟩ (by decide) (by decide)
      (by decide)).1 (by decide)).1

/-- The line request of the spec test: from `(0, 0)` to `(5, 0)` on an 8-by-8
buffer. -/
def c7_params : LineParams := ⟨0, 0, 5, 0, 8, 8, ⟨200, 201, 202, 203⟩⟩

set_option maxRecDepth 8192 in
/-- C7: on an 8-by-8 buffer whose 256 bytes initially hold the distinct values
`0..255`, the Bresenham walk visits exactly `(0,0) … (5,0)` and the resulting
buffer has the color bytes on exactly those six pixels (bytes `0..23`) while
every other byte keeps its initial value. -/
theorem c7_line_horizontal_exact :
    (draw_line_optimized 16 (List.range 256) c7_params).map
        (fun r => (r.visited, r.buffer))
      = some ([(0, 0), (1, 0), (2, 0), (3, 0), (4, 0), (5, 0)],
          (List.range 256).map fun i => if i < 24 then 200 + i % 4 else i) := by
  decide

/-- C8: on every created surface, feeding the buffer returned by
`get_frame_buffer` back into `update_frame` succeeds and leaves the state —
in particular the frame bytes — exactly as it was. -/
theorem c8_update_get_round_trip (st : WindowState) (f : List Nat)
    (h : st.pixels = some f) :
    FrameController.get_frame_buffer st = Except.ok f ∧
    FrameController.update_frame st f = (Except.ok (), st) := by
  obtain ⟨px, win, w, ht, cb, rwo, occ⟩ := st
  simp only at h
  subst h
  constructor
  · rfl
  · simp [FrameController.update_frame]

/-- C8 witness: the round trip on a concrete one-pixel surface. -/
theorem c8_update_get_round_trip_witness :
    FrameController.get_frame_buffer ⟨some [1, 2, 3, 4], true, 1, 1, false, true, false⟩
      = Except.ok [1, 2, 3, 4] ∧
    FrameController.update_frame ⟨some [1, 2, 3, 4], true, 1, 1, false, true, false⟩
        [1, 2, 3, 4]
      = (Except.ok (), ⟨some [1, 2, 3, 4], true, 1, 1, false, true, false⟩) :=
  c8_update_get_round_trip ⟨some [1, 2, 3, 4], true, 1, 1, false, true, false⟩
    [1, 2, 3, 4] rfl

/-- The line request whose `i32`-cast horizontal distance is exactly `2^31`:
from `(0, 0)` to `(2147483648, 6)` on an 8-by-8 buffer (all coordinates are
valid `u32` values). -/
def c10_params : LineParams := ⟨0, 0, 2147483648, 6, 8, 8, ⟨255, 0, 0, 255⟩⟩

/-- Loop environment that `draw_line_optimized` computes for `c10_params`:
`dx` is `|x1_i - x0|` of `i32::MIN`, which wraps back to `i32::MIN`. -/
def c10_env : LineEnv := ⟨-2147483648, 6, -2147483648, -6, -1, 1, 8, 8, ⟨255, 0, 0, 255⟩⟩

lemma c10_env_eq : lineEnvOf c10_params = c10_env := by decide

/-- From the initial state of `c10_params` the loop makes no progress:
`e2 = -12` lies strictly between `dx = -2^31` and `dy = -6`, so neither branch
fires, the state never changes, and the loop never breaks, for any amount of
fuel. -/
lemma c10_loop_stuck : ∀ (fuel : Nat) (acc : LineAcc),
    lineLoop c10_env fuel 0 0 2147483642 acc = none := by
  intro fuel
  induction fuel with
  | zero => intro acc; rfl
  | succ n ih =>
    intro acc
    have hbreak : ¬ ((0 : Int) = c10_env.x1i ∧ (0 : Int) = c10_env.y1i) := by decide
    have he2 : wrap32 (2 * 2147483642) = -12 := by decide
    have hdy : ¬ ((-12 : Int) ≥ c10_env.dy) := by decide
    have hdx : ¬ ((-12 : Int) ≤ c10_env.dx) := by decide
    simp only [lineLoop, he2]
    rw [if_neg hbreak]
    simp only [if_neg hdy, if_neg hdx]
    exact ih _

/-- C10: the Bresenham line loop does not terminate for every input.  For the
valid `u32` endpoints of `c10_params` the loop never reaches `(x2, y2)` no
matter how many iterations it is allowed, on any buffer (release-mode wrapping
semantics; a debug build panics on the same input when `dx` overflows). -/
theorem c10_line_loop_never_breaks (fuel : Nat) (buffer : List Nat) :
    draw_line_optimized fuel buffer c10_params = none := by
  have h2 : toInt32 c10_params.x1 = 0 := by decide
  have h3 : toInt32 c10_params.y1 = 0 := by decide
  have h4 : wrap32 (c10_env.dx + c10_env.dy) = 2147483642 := by decide
  simp only [draw_line_optimized, c10_env_eq, h2, h3, h4]
  exact c10_loop_stuck fuel ⟨[], [], buffer⟩
